import Mathlib

/-!
Verification of the URI-validation core of this repository
(`ethpm/validation/uri.py`) and of the block/transaction field validators
(`web3/middleware/validation.py`), via a shallow embedding in Lean.

Python exceptions are modelled with `Except PyError`.  External boundary
collaborators (`is_ens_domain`, `is_checksum_address`, `is_supported_chain_id`,
`validate_package_name`, `check_if_chain_matches_chain_uri`) are injected
predicate/validator parameters, exactly as the specification describes them
(interfaces only).  The trusted primitives used by the source (`hashlib.sha1`,
UTF-8 codecs, Python `int(text)`, `urllib.parse.urlparse`) are modelled
faithfully as executable Lean functions so that every validator is computable.
-/

/-- The exception kinds relevant to the two source files.  `ethPMValidationError`
is the single base validation-error family of the ethpm core
(`ethpm.exceptions.EthPMValidationError`); `web3ValidationError` is
`web3.exceptions.ValidationError`.  `valueError` and `unicodeDecodeError` stand
for the corresponding foreign (built-in) Python exceptions, which are outside
both validation-error families; their message text is not modelled. -/
inductive PyError where
  | ethPMValidationError (msg : String)
  | web3ValidationError (msg : String)
  | valueError
  | unicodeDecodeError
deriving DecidableEq, Repr

deriving instance DecidableEq for Except

/-- Whether an exception belongs to the ethpm base validation-error family. -/
def PyError.isEthPM : PyError → Bool
  | .ethPMValidationError _ => true
  | _ => false

/- ## String helpers modelling Python primitives -/

/-- Python `str.split(sep)` for a one-character separator: splits at every
occurrence, keeping empty pieces, so that the number of pieces is always
(number of separators) + 1. -/
def splitOnChar (sep : Char) : List Char → List (List Char)
  | [] => [[]]
  | c :: cs =>
    if c = sep then [] :: splitOnChar sep cs
    else
      match splitOnChar sep cs with
      | h :: t => (c :: h) :: t
      | [] => [[c]]

/-- Split a list at the first occurrence of `sep`; `none` when absent. -/
def splitFirst (sep : Char) : List Char → Option (List Char × List Char)
  | [] => none
  | c :: cs =>
    if c = sep then some ([], cs)
    else (splitFirst sep cs).map (fun p => (c :: p.1, p.2))

/-- Python `auth.split(':')` lifted to `String`. -/
def pySplitColon (s : String) : List String :=
  (splitOnChar ':' s.data).map String.mk

/-- Drop the given character from the front of a list. -/
def dropLeading (c : Char) (cs : List Char) : List Char :=
  cs.dropWhile (fun x => x = c)

/-- Python `s.strip(c)` for a one-character strip set. -/
def stripChar (c : Char) (cs : List Char) : List Char :=
  ((dropLeading c cs).reverse |> dropLeading c).reverse

/-- The ASCII whitespace characters stripped by Python `int(text)`. -/
def isPySpace (c : Char) : Bool :=
  c = ' ' || c = '\t' || c = '\n' || c = '\r' || c.toNat = 11 || c.toNat = 12

/-- Strip whitespace from both ends, as Python `int(text)` does. -/
def pyStripSpace (cs : List Char) : List Char :=
  ((cs.dropWhile isPySpace).reverse.dropWhile isPySpace).reverse

def isAsciiDigit (c : Char) : Bool := '0' ≤ c && c ≤ '9'

/-- After a leading digit, Python integer literals allow single underscores
strictly between digits. -/
def udigitsRest : List Char → Bool
  | [] => true
  | '_' :: [] => false
  | '_' :: c :: cs => isAsciiDigit c && udigitsRest cs
  | c :: cs => isAsciiDigit c && udigitsRest cs

/-- A nonempty digit run with optional single underscores between digits. -/
def udigits : List Char → Bool
  | [] => false
  | c :: cs => isAsciiDigit c && udigitsRest cs

/-- Decimal value of a digit run, skipping underscores. -/
def digitsToNat (cs : List Char) : Nat :=
  cs.foldl (fun acc c => if isAsciiDigit c then acc * 10 + (c.toNat - 48) else acc) 0

/-- Model of Python `int(text)` (base 10), the conversion performed by
`eth_utils.to_int(text=...)`: strip whitespace, optional sign, then digits with
optional single underscores between digits.  `none` models the `ValueError`
raised by `int` on any other input. -/
def to_int_text (s : String) : Option Int :=
  match pyStripSpace s.data with
  | '+' :: rest => if udigits rest then some (digitsToNat rest) else none
  | '-' :: rest => if udigits rest then some (-(digitsToNat rest : Int)) else none
  | rest => if udigits rest then some (digitsToNat rest) else none

/- ## Registry URI authority validation (ethpm/validation/uri.py) -/

/-- `validate_registry_uri_authority` from `ethpm/validation/uri.py`.
The boundary predicates `is_ens_domain` (isEns), `is_checksum_address` (isChk)
and `is_supported_chain_id` (isSupported) are injected, as the specification
treats them.  The source splits the authority on `:` and unpacks into exactly
two names (a wrong count raises `ValueError`, caught and re-raised as
`EthPMValidationError`); then checks the identity; then calls
`to_int(text=chain_id)` — whose `ValueError` on an unparsable string is NOT
caught — and finally the supported-chain-id membership. -/
def validate_registry_uri_authority (isEns isChk : String → Bool)
    (isSupported : Int → Bool) (auth : String) : Except PyError Unit :=
  match pySplitColon auth with
  | [address, chain_id] =>
    if isEns address = false && !(isChk address) then
      .error (.ethPMValidationError
        (address ++ " is not a valid registry address. Please try again with a valid registry URI."))
    else
      match to_int_text chain_id with
      | none => .error .valueError
      | some n =>
        if !(isSupported n) then
          .error (.ethPMValidationError
            ("Chain ID: " ++ chain_id ++ " is not supported. Supported chain ids include: 1 (mainnet), 3 (ropsten), 4 (rinkeby), 5 (goerli) and 42 (kovan). Please try again with a valid registry URI."))
        else .ok ()
  | _ =>
    .error (.ethPMValidationError
      (auth ++ " is not a valid registry URI authority. Please try again with a valid registry URI."))

/-- The `MalformedAuthority` message of the source. -/
def malformedAuthorityMsg (auth : String) : String :=
  auth ++ " is not a valid registry URI authority. Please try again with a valid registry URI."

/-- The `UnsupportedChainID` message of the source, which hard-codes the
enumeration of the known supported identifiers. -/
def unsupportedChainIdMsg (chain_id : String) : String :=
  "Chain ID: " ++ chain_id ++ " is not supported. Supported chain ids include: 1 (mainnet), 3 (ropsten), 4 (rinkeby), 5 (goerli) and 42 (kovan). Please try again with a valid registry URI."

/- ## Model of urllib.parse.urlparse (the decomposition the source relies on) -/

/-- The components returned by `urllib.parse.urlparse` that the source uses. -/
structure UrlParts where
  scheme : String
  netloc : String
  path : String
  query : String
  fragment : String
deriving DecidableEq, Repr

/-- Characters permitted in a URI scheme by `urllib.parse`. -/
def schemeChar (c : Char) : Bool :=
  ('a' ≤ c && c ≤ 'z') || ('A' ≤ c && c ≤ 'Z') || ('0' ≤ c && c ≤ '9') ||
    c = '+' || c = '-' || c = '.'

/-- Model of Python `urllib.parse.urlparse` restricted to the components the
source reads (`scheme`, `netloc`, `path`, `query`): a scheme is recognised
before the first `:` when nonempty and made of scheme characters and is
lowercased; a netloc follows a leading `//` and runs to the next `/`, `?` or
`#`; the fragment is split at the first `#`, then the query at the first `?`.
(The `params` component, split from the path at `;`, is not modelled; no URI
considered here contains `;`.) -/
def urlparse (uri : String) : UrlParts :=
  let cs := uri.data
  let (schemeCs, rest) :=
    match splitFirst ':' cs with
    | some (bef, aft) =>
      if bef ≠ [] && bef.all schemeChar then (bef, aft) else (([] : List Char), cs)
    | none => ([], cs)
  let (netlocCs, rest2) :=
    match rest with
    | '/' :: '/' :: r =>
      (r.takeWhile (fun c => c ≠ '/' && c ≠ '?' && c ≠ '#'),
       r.dropWhile (fun c => c ≠ '/' && c ≠ '?' && c ≠ '#'))
    | _ => ([], rest)
  let (rest3, fragmentCs) :=
    match splitFirst '#' rest2 with
    | some (a, b) => (a, b)
    | none => (rest2, [])
  let (pathCs, queryCs) :=
    match splitFirst '?' rest3 with
    | some (a, b) => (a, b)
    | none => (rest3, [])
  { scheme := String.mk (schemeCs.map Char.toLower)
    netloc := String.mk netlocCs
    path := String.mk pathCs
    query := String.mk queryCs
    fragment := String.mk fragmentCs }

/- ## Registry URI validation (ethpm/validation/uri.py) -/

/-- Modelled from the spec: `REGISTRY_URI_SCHEME` lives in `ethpm/constants.py`,
which is not part of this bundle; the specification fixes it as the single
registry scheme literal and its examples use `erc1319`. -/
def REGISTRY_URI_SCHEME : String := "erc1319"

/-- `validate_registry_uri_scheme` from `ethpm/validation/uri.py`. -/
def validate_registry_uri_scheme (scheme : String) : Except PyError Unit :=
  if scheme ≠ REGISTRY_URI_SCHEME then
    .error (.ethPMValidationError (scheme ++ " is not a valid registry URI scheme."))
  else .ok ()

/-- The keys of `urllib.parse.parse_qs(query, keep_blank_values=True)`: pairs
are split at `&`, empty pairs are dropped, the key is the part before the
first `=` (the whole pair when there is none, kept because blank values are
retained).  Percent-decoding and plus-decoding of keys are not modelled; no
query considered here uses them. -/
def parse_qs_keys (query : String) : List String :=
  (splitOnChar '&' query.data).filterMap fun pair =>
    if pair = [] then none
    else
      match splitFirst '=' pair with
      | some (k, _) => some (String.mk k)
      | none => some (String.mk pair)

/-- `validate_registry_uri_version` from `ethpm/validation/uri.py`. -/
def validate_registry_uri_version (query : String) : Except PyError Unit :=
  if !((parse_qs_keys query).contains "version") then
    .error (.ethPMValidationError (query ++ " is not a correctly formatted version param."))
  else .ok ()

/-- The body of `validate_registry_uri` from `ethpm/validation/uri.py` after
`urlparse`, with the boundary predicates and the external
`validate_package_name` (vpn) injected.  The source raises at the first
failing check: scheme, then authority, then (for a nonempty stripped path)
the package name, then the empty-path/nonempty-query conflict, then the
version query. -/
def validate_registry_uri_parts (isEns isChk : String → Bool)
    (isSupported : Int → Bool) (vpn : String → Except PyError Unit)
    (parsed : UrlParts) : Except PyError Unit :=
  match validate_registry_uri_scheme parsed.scheme with
  | .error e => .error e
  | .ok _ =>
    match validate_registry_uri_authority isEns isChk isSupported parsed.netloc with
    | .error e => .error e
    | .ok _ =>
      let pkg_name := String.mk (stripChar '/' parsed.path.data)
      match (if pkg_name ≠ "" then vpn pkg_name else .ok ()) with
      | .error e => .error e
      | .ok _ =>
        if pkg_name = "" && parsed.query ≠ "" then
          .error (.ethPMValidationError
            "Registry URIs cannot provide a version without a package name.")
        else if parsed.query ≠ "" then
          validate_registry_uri_version parsed.query
        else .ok ()

/-- `validate_registry_uri` from `ethpm/validation/uri.py`. -/
def validate_registry_uri (isEns isChk : String → Bool) (isSupported : Int → Bool)
    (vpn : String → Except PyError Unit) (uri : String) : Except PyError Unit :=
  validate_registry_uri_parts isEns isChk isSupported vpn (urlparse uri)

/-- The `MissingPackageName` message of the source. -/
def missingPackageNameMsg : String :=
  "Registry URIs cannot provide a version without a package name."

/- ## Chain-match selection (ethpm/validation/uri.py) -/

/-- The `AmbiguousMatch` message of the source, listing the matching URIs and
their count. -/
def ambiguousMatchMsg (matching_uris : List String) : String :=
  "Package has too many (" ++ toString matching_uris.length ++ ") matching URIs: " ++
    toString matching_uris ++ "."

/-- `validate_single_matching_uri` from `ethpm/validation/uri.py`, with the
external per-URI predicate `check_if_chain_matches_chain_uri w3` injected as
`chainMatches`.  The source filters the candidates by the predicate, raises when
there is no match, raises when there is more than one match (listing them all
and their count), and otherwise returns the single match. -/
def validate_single_matching_uri (chainMatches : String → Bool)
    (all_blockchain_uris : List String) : Except PyError String :=
  let matching_uris := all_blockchain_uris.filter chainMatches
  if matching_uris.isEmpty then
    .error (.ethPMValidationError "Package has no matching URIs on chain.")
  else if matching_uris.length ≠ 1 then
    .error (.ethPMValidationError (ambiguousMatchMsg matching_uris))
  else .ok (matching_uris.headD "")

/- ## UTF-8 codec (model of Python bytes.decode / str.encode in strict mode) -/

/-- A UTF-8 continuation byte. -/
def utf8Cont (b : Nat) : Bool := 128 ≤ b && b < 192

/-- Strict UTF-8 decoding of a byte list to code points, the model of
`eth_utils.to_text(contents)` (i.e. Python `bytes.decode()`): rejects invalid
start bytes, truncated sequences, overlong encodings, surrogates and code
points above U+10FFFF; `none` models the `UnicodeDecodeError`. -/
def utf8Decode : List Nat → Option (List Char)
  | [] => some []
  | b :: rest =>
    if b < 128 then
      (utf8Decode rest).map (Char.ofNat b :: ·)
    else if b < 194 then none
    else if b < 224 then
      match rest with
      | b1 :: rest1 =>
        if utf8Cont b1 then
          (utf8Decode rest1).map (Char.ofNat ((b - 192) * 64 + (b1 - 128)) :: ·)
        else none
      | [] => none
    else if b < 240 then
      match rest with
      | b1 :: b2 :: rest2 =>
        if utf8Cont b1 && utf8Cont b2 then
          let n := (b - 224) * 4096 + (b1 - 128) * 64 + (b2 - 128)
          if n < 2048 || (55296 ≤ n && n < 57344) then none
          else (utf8Decode rest2).map (Char.ofNat n :: ·)
        else none
      | _ => none
    else if b < 245 then
      match rest with
      | b1 :: b2 :: b3 :: rest3 =>
        if utf8Cont b1 && utf8Cont b2 && utf8Cont b3 then
          let n := (b - 240) * 262144 + (b1 - 128) * 4096 + (b2 - 128) * 64 + (b3 - 128)
          if n < 65536 || 1114111 < n then none
          else (utf8Decode rest3).map (Char.ofNat n :: ·)
        else none
      | _ => none
    else none

/-- Model of `eth_utils.to_text(contents)`: strict UTF-8 decoding to a string. -/
def to_text (contents : List Nat) : Option String :=
  (utf8Decode contents).map String.mk

/-- UTF-8 encoding of one code point. -/
def utf8EncodeChar (c : Char) : List Nat :=
  let n := c.toNat
  if n < 128 then [n]
  else if n < 2048 then [192 + n / 64, 128 + n % 64]
  else if n < 65536 then [224 + n / 4096, 128 + (n / 64) % 64, 128 + n % 64]
  else [240 + n / 262144, 128 + (n / 4096) % 64, 128 + (n / 64) % 64, 128 + n % 64]

def utf8EncodeL : List Char → List Nat
  | [] => []
  | c :: cs => utf8EncodeChar c ++ utf8EncodeL cs

/-- Model of `eth_utils.to_bytes(text=s)`: UTF-8 encoding of a string. -/
def utf8Encode (s : String) : List Nat := utf8EncodeL s.data

/- ## SHA-1 (model of hashlib.sha1, the trusted hashing primitive) -/

/-- Truncation to a 32-bit word. -/
def w32 (n : Nat) : Nat := n % 4294967296

/-- Left rotation of a 32-bit word by `k` bits. -/
def rotl (k n : Nat) : Nat := w32 ((n <<< k) ||| (n >>> (32 - k)))

/-- Big-endian byte expansion of `n` to exactly `k` bytes. -/
def beBytes : Nat → Nat → List Nat
  | 0, _ => []
  | k + 1, n => beBytes k (n / 256) ++ [n % 256]

/-- Group bytes into big-endian 32-bit words (four bytes per word). -/
def bytesToWords : List Nat → List Nat
  | a :: b :: c :: d :: rest => (a * 16777216 + b * 65536 + c * 256 + d) :: bytesToWords rest
  | _ => []

/-- SHA-1 padding: append `0x80`, zeros to 56 mod 64, and the 64-bit
big-endian bit length. -/
def sha1Pad (msg : List Nat) : List Nat :=
  let len := msg.length
  msg ++ [128] ++ List.replicate ((64 - (len + 9) % 64) % 64) 0 ++ beBytes 8 (8 * len)

/-- Split a byte list into 64-byte blocks; the fuel argument makes the
recursion structural and is instantiated with the list length. -/
def toBlocksF : Nat → List Nat → List (List Nat)
  | 0, _ => []
  | _, [] => []
  | fuel + 1, c :: rest => ((c :: rest).take 64) :: toBlocksF fuel ((c :: rest).drop 64)

/-- Extend 16 message-schedule words to 80; `acc` holds the words produced so
far in reverse order. -/
def sha1Extend : Nat → List Nat → List Nat
  | 0, acc => acc.reverse
  | fuel + 1, acc =>
    sha1Extend fuel
      (rotl 1 ((acc.getD 2 0) ^^^ (acc.getD 7 0) ^^^ (acc.getD 13 0) ^^^ (acc.getD 15 0)) :: acc)

/-- The SHA-1 round function. -/
def sha1F (i b c d : Nat) : Nat :=
  if i < 20 then (b &&& c) ||| ((b ^^^ 4294967295) &&& d)
  else if i < 40 then b ^^^ c ^^^ d
  else if i < 60 then (b &&& c) ||| (b &&& d) ||| (c &&& d)
  else b ^^^ c ^^^ d

/-- The SHA-1 round constants. -/
def sha1K (i : Nat) : Nat :=
  if i < 20 then 1518500249
  else if i < 40 then 1859775393
  else if i < 60 then 2400959708
  else 3395469782

/-- The 80 SHA-1 rounds over the extended schedule. -/
def sha1Rounds : Nat → List Nat → Nat × Nat × Nat × Nat × Nat → Nat × Nat × Nat × Nat × Nat
  | _, [], st => st
  | i, w :: ws, (a, b, c, d, e) =>
    sha1Rounds (i + 1) ws (w32 (rotl 5 a + sha1F i b c d + e + sha1K i + w), a, rotl 30 b, c, d)

/-- Fold the compression function over the 64-byte blocks. -/
def sha1Chunks : List (List Nat) → Nat × Nat × Nat × Nat × Nat → Nat × Nat × Nat × Nat × Nat
  | [], h => h
  | chunk :: rest, (h0, h1, h2, h3, h4) =>
    let ws := sha1Extend 64 (bytesToWords chunk).reverse
    let st := sha1Rounds 0 ws (h0, h1, h2, h3, h4)
    sha1Chunks rest
      (w32 (h0 + st.1), w32 (h1 + st.2.1), w32 (h2 + st.2.2.1),
       w32 (h3 + st.2.2.2.1), w32 (h4 + st.2.2.2.2))

/-- The 20-byte SHA-1 digest of a byte list. -/
def sha1Bytes (msg : List Nat) : List Nat :=
  let padded := sha1Pad msg
  let st := sha1Chunks (toBlocksF padded.length padded)
    (1732584193, 4023233417, 2562383102, 271733878, 3285377520)
  beBytes 4 st.1 ++ beBytes 4 st.2.1 ++ beBytes 4 st.2.2.1 ++
    beBytes 4 st.2.2.2.1 ++ beBytes 4 st.2.2.2.2

/-- A lowercase hexadecimal digit. -/
def hexDigitChar (n : Nat) : Char :=
  if n < 10 then Char.ofNat (48 + n) else Char.ofNat (87 + n)

def bytesToHex : List Nat → List Char
  | [] => []
  | b :: rest => hexDigitChar (b / 16) :: hexDigitChar (b % 16) :: bytesToHex rest

/-- Model of `hashlib.sha1(...).hexdigest()`. -/
def sha1Hex (msg : List Nat) : String := String.mk (bytesToHex (sha1Bytes msg))

/- ## Blob content verification (ethpm/validation/uri.py) -/

/-- Python `path.split("/")[-1]`: the final `/`-delimited segment. -/
def lastSegment (path : String) : String :=
  match (splitOnChar '/' path.data).reverse with
  | [] => ""
  | s :: _ => String.mk s

/-- The git-blob framing the source hashes: `"blob " + str(len) + "\0" + text`. -/
def blobFraming (contents_str : String) : String :=
  "blob " ++ toString contents_str.length ++ "\x00" ++ contents_str

/-- The `ContentHashMismatch` message of the source: it repeats the source URI
and the expected digest taken from the URI (`blob_hash`), and nothing else. -/
def contentHashMismatchMsg (blob_uri blob_hash : String) : String :=
  "Hash of contents fetched from " ++ blob_uri ++ " do not match its hash: " ++ blob_hash ++ "."

/-- `validate_blob_uri_contents` from `ethpm/validation/uri.py`: extract the
final path segment of the URI as the expected digest, decode the contents as
text (an undecodable byte sequence makes `to_text` raise `UnicodeDecodeError`,
which the source does not catch), frame them git-blob style, SHA-1 the framed
text's UTF-8 bytes, and compare the hex digest with the expected one. -/
def validate_blob_uri_contents (contents : List Nat) (blob_uri : String) :
    Except PyError Unit :=
  let blob_path := (urlparse blob_uri).path
  let blob_hash := lastSegment blob_path
  match to_text contents with
  | none => .error .unicodeDecodeError
  | some contents_str =>
    if sha1Hex (utf8Encode (blobFraming contents_str)) ≠ blob_hash then
      .error (.ethPMValidationError (contentHashMismatchMsg blob_uri blob_hash))
    else .ok ()

/- ## Substring containment (for reasoning about message contents) -/

/-- Whether `needle` is an initial segment of `hay`. -/
def isInitialSeg : List Char → List Char → Bool
  | [], _ => true
  | _ :: _, [] => false
  | a :: as, b :: bs => a = b && isInitialSeg as bs

/-- Whether `needle` occurs contiguously inside `hay`. -/
def containsSeg (needle : List Char) : List Char → Bool
  | [] => isInitialSeg needle []
  | c :: t => isInitialSeg needle (c :: t) || containsSeg needle t

/-- Whether the string `needle` occurs inside the string `hay`. -/
def strContains (hay needle : String) : Bool := containsSeg needle.data hay.data

/- ## web3/middleware/validation.py -/

/-- A Python value as the middleware validators see it: the three types the
`isinstance` check recognises (with `pyBool` separate because Python `bool` is
a subclass of `int`, so `isinstance(True, int)` holds), plus values of any
other type, which the validators pass through untouched. -/
inductive PyVal where
  | pyStr (s : String)
  | pyInt (n : Int)
  | pyBool (b : Bool)
  | pyBytes (bs : List Nat)
  | pyNone
  | pyOther (tag : String)
deriving DecidableEq, Repr

/-- The `isinstance(val, (str, int, bytes))` test of the source (`bool` is an
`int` subclass in Python, so it passes the test). -/
def isStrIntBytes : PyVal → Bool
  | .pyStr _ | .pyInt _ | .pyBool _ | .pyBytes _ => true
  | _ => false

/-- A hexadecimal digit's value. -/
def hexVal (c : Char) : Option Nat :=
  if '0' ≤ c && c ≤ '9' then some (c.toNat - 48)
  else if 'a' ≤ c && c ≤ 'f' then some (c.toNat - 87)
  else if 'A' ≤ c && c ≤ 'F' then some (c.toNat - 55)
  else none

def hexPairsToBytes : List Char → Option (List Nat)
  | [] => some []
  | [_] => none
  | c1 :: c2 :: rest =>
    match hexVal c1, hexVal c2, hexPairsToBytes rest with
    | some a, some b, some t => some ((a * 16 + b) :: t)
    | _, _, _ => none

/-- Model of the `hexbytes` package's hex-string conversion: strip an optional
`0x`/`0X` prefix, left-pad to even length, decode hex pairs; `none` models the
`ValueError` raised on a non-hex character. -/
def hexstr_to_bytes (s : String) : Option (List Nat) :=
  let cs := if s.data.take 2 = ['0', 'x'] || s.data.take 2 = ['0', 'X'] then
    s.data.drop 2 else s.data
  hexPairsToBytes (if cs.length % 2 = 1 then '0' :: cs else cs)

/-- Minimal big-endian byte expansion of a natural number (`0` gives one zero
byte), matching `hexbytes`' conversion of a nonnegative `int` through
`hex(n)`; fuelled to keep the recursion structural. -/
def natBytesAux : Nat → Nat → List Nat
  | 0, _ => []
  | _, 0 => []
  | fuel + 1, n => natBytesAux fuel (n / 256) ++ [n % 256]

def natToBytesBE (n : Nat) : List Nat :=
  if n = 0 then [0] else natBytesAux n n

/-- Model of `HexBytes(val)` for the three types the source feeds it: bytes
pass through; a str is parsed as hex; an int goes through `hex(n)`, so a
negative int (whose `hex` begins with `-`) fails hex parsing; a bool becomes
one byte.  `none` models the `ValueError` escaping from the conversion. -/
def hexBytesOf : PyVal → Option (List Nat)
  | .pyBytes bs => some bs
  | .pyStr s => hexstr_to_bytes s
  | .pyInt n => if n < 0 then none else some (natToBytesBE n.toNat)
  | .pyBool b => some [if b then 1 else 0]
  | _ => none

def MAX_EXTRADATA_LENGTH : Nat := 32

/-- The `ValidationError` message of `check_extradata_length` (the `%r` of the
`HexBytes` result is rendered as its hex form; the quoting of Python `repr` is
not modelled). -/
def extradataMsg (result : List Nat) : String :=
  "The field extraData is " ++ toString result.length ++ " bytes, but should be " ++
    toString MAX_EXTRADATA_LENGTH ++ ". It is quite likely that you are connected to a POA chain. Refer http://web3py.readthedocs.io/en/stable/middleware.html#geth-style-proof-of-authority for more details. The full extraData is: HexBytes(0x" ++
    String.mk (bytesToHex result) ++ ")"

/-- `check_extradata_length` from `web3/middleware/validation.py`: values that
are not str/int/bytes are returned unchanged; otherwise the value is converted
through `HexBytes` and a `ValidationError` is raised when the result exceeds
32 bytes, else the original value is returned. -/
def check_extradata_length (val : PyVal) : Except PyError PyVal :=
  if !(isStrIntBytes val) then .ok val
  else
    match hexBytesOf val with
    | none => .error .valueError
    | some result =>
      if result.length > MAX_EXTRADATA_LENGTH then
        .error (.web3ValidationError (extradataMsg result))
      else .ok val

/-- Association-list lookup, the model of Python dict indexing for the
transaction mappings below (keys are unique in a dict). -/
def assocLookup (k : String) : List (String × PyVal) → Option PyVal
  | [] => none
  | (k2, v) :: t => if k2 = k then some v else assocLookup k t

/-- `transaction_normalizer` from `web3/middleware/validation.py`:
`dissoc(transaction, 'chainId')` — a copy of the mapping without the
`chainId` key.  Mappings are modelled as key-unique association lists, so the
removal is a filter on the key. -/
def transaction_normalizer (transaction : List (String × PyVal)) : List (String × PyVal) :=
  transaction.filter (fun kv => kv.1 ≠ "chainId")

/- ## Helper lemmas -/

theorem splitOnChar_ne_nil (sep : Char) (l : List Char) : splitOnChar sep l ≠ [] := by
  induction l with
  | nil => simp [splitOnChar]
  | cons c cs ih =>
    simp only [splitOnChar]
    by_cases h : c = sep
    · simp [h]
    · simp only [if_neg h]
      cases hs : splitOnChar sep cs with
      | nil => exact absurd hs ih
      | cons a t => simp

/-- A split has one more piece than the number of separators, so Python
`s.split(sep)` yields exactly two pieces exactly when `sep` occurs once. -/
theorem splitOnChar_length (sep : Char) (l : List Char) :
    (splitOnChar sep l).length = l.count sep + 1 := by
  induction l with
  | nil => simp [splitOnChar]
  | cons c cs ih =>
    simp only [splitOnChar]
    by_cases h : c = sep
    · simp [h, List.count_cons, ih]
    · cases hs : splitOnChar sep cs with
      | nil => exact absurd hs (splitOnChar_ne_nil sep cs)
      | cons a t =>
        rw [hs] at ih
        simp only [List.length_cons] at ih
        simp [h, List.count_cons, beq_iff_eq]
        omega

theorem isInitialSeg_self_append (b c : List Char) : isInitialSeg b (b ++ c) = true := by
  induction b with
  | nil => rfl
  | cons x xs ih => simp [isInitialSeg, ih]

theorem containsSeg_self_append (b c : List Char) : containsSeg b (b ++ c) = true := by
  cases b with
  | nil =>
    cases c with
    | nil => rfl
    | cons x t => simp [containsSeg, isInitialSeg]
  | cons x xs => simp [containsSeg, isInitialSeg, isInitialSeg_self_append]

theorem containsSeg_append_of (needle rest a : List Char)
    (h : containsSeg needle rest = true) : containsSeg needle (a ++ rest) = true := by
  induction a with
  | nil => simpa using h
  | cons x xs ih => simp [containsSeg, ih]

/- ## Claim theorems -/

/-- C4: for every authority string whose number of `:` separators is not
exactly one (zero colons, or two or more colons), the split does not yield
exactly two parts, and `validate_registry_uri_authority` fails with the
`MalformedAuthority` error rather than silently truncating the extra parts,
whatever the injected identity and chain-id predicates are. -/
theorem claim_C4 (isEns isChk : String → Bool) (isSupported : Int → Bool)
    (auth : String) (h : auth.data.count ':' ≠ 1) :
    validate_registry_uri_authority isEns isChk isSupported auth =
      .error (.ethPMValidationError (malformedAuthorityMsg auth)) := by
  have hlen : (pySplitColon auth).length ≠ 2 := by
    simp only [pySplitColon, List.length_map, splitOnChar_length]
    omega
  unfold validate_registry_uri_authority
  cases hs : pySplitColon auth with
  | nil => rfl
  | cons a t =>
    cases t with
    | nil => rfl
    | cons b t2 =>
      cases t2 with
      | nil => rw [hs] at hlen; simp at hlen
      | cons c t3 => rfl

/-- C4 witness: both `"0xAbC:1:2"` (two colons) and `"noColon"` (zero colons)
fail with the `MalformedAuthority` error. -/
theorem claim_C4_witness :
    ("0xAbC:1:2".data.count ':' ≠ 1 ∧
      validate_registry_uri_authority (fun _ => false) (fun _ => true) (fun _ => true)
        "0xAbC:1:2" = .error (.ethPMValidationError (malformedAuthorityMsg "0xAbC:1:2")))
    ∧ ("noColon".data.count ':' ≠ 1 ∧
      validate_registry_uri_authority (fun _ => false) (fun _ => true) (fun _ => true)
        "noColon" = .error (.ethPMValidationError (malformedAuthorityMsg "noColon"))) :=
  ⟨⟨by decide, claim_C4 _ _ _ _ (by decide)⟩,
   ⟨by decide, claim_C4 _ _ _ _ (by decide)⟩⟩

/-- C1 counterexample: with an identity accepted as an ENS domain and the
unparsable chain-id string `"abc"`, `validate_registry_uri_authority` does not
fail with the `UnsupportedChainID` validation error: the uncaught `ValueError`
from integer parsing escapes, and it is not in the validation-error family at
all. -/
theorem claim_C1_counterexample :
    validate_registry_uri_authority (fun s => s = "example.eth") (fun _ => false)
      (fun n => n = 1 || n = 3 || n = 4 || n = 5 || n = 42) "example.eth:abc" =
      .error .valueError
    ∧ PyError.valueError.isEthPM = false := by decide

/-- C1 (amended): for an authority `identity:chain_id_str` with a valid
identity, an unparsable `chain_id_str` makes `validate_registry_uri_authority`
escape with the foreign `ValueError` raised by integer parsing (not with
`UnsupportedChainID`); a parseable but unsupported chain id fails with the
`UnsupportedChainID` validation error whose message enumerates the known
supported identifiers 1, 3, 4, 5 and 42. -/
theorem claim_C1_amended (isEns isChk : String → Bool) (isSupported : Int → Bool)
    (auth identity cid : String)
    (hsplit : pySplitColon auth = [identity, cid])
    (hid : isEns identity = true ∨ isChk identity = true) :
    (to_int_text cid = none →
      validate_registry_uri_authority isEns isChk isSupported auth = .error .valueError)
    ∧ (∀ n : Int, to_int_text cid = some n → isSupported n = false →
        validate_registry_uri_authority isEns isChk isSupported auth =
          .error (.ethPMValidationError (unsupportedChainIdMsg cid))) := by
  constructor
  · intro hnone
    unfold validate_registry_uri_authority
    rw [hsplit]
    rcases hid with h | h <;> simp [h, hnone]
  · intro n hsome hunsup
    unfold validate_registry_uri_authority
    rw [hsplit]
    rcases hid with h | h <;> simp [h, hsome, hunsup, unsupportedChainIdMsg]

/-- C1 witness: the amended claim at `"example.eth:abc"` (unparsable chain id,
foreign `ValueError`) and `"example.eth:999"` (parseable but unsupported,
`UnsupportedChainID` with the enumerating message). -/
theorem claim_C1_amended_witness :
    (pySplitColon "example.eth:abc" = ["example.eth", "abc"]
      ∧ to_int_text "abc" = none
      ∧ validate_registry_uri_authority (fun s => s = "example.eth") (fun _ => false)
          (fun n => n = 1 || n = 3 || n = 4 || n = 5 || n = 42) "example.eth:abc" =
          .error .valueError)
    ∧ (to_int_text "999" = some 999
      ∧ validate_registry_uri_authority (fun s => s = "example.eth") (fun _ => false)
          (fun n => n = 1 || n = 3 || n = 4 || n = 5 || n = 42) "example.eth:999" =
          .error (.ethPMValidationError (unsupportedChainIdMsg "999"))) :=
  ⟨⟨by decide, by decide,
    (claim_C1_amended (fun s => s = "example.eth") (fun _ => false)
      (fun n => n = 1 || n = 3 || n = 4 || n = 5 || n = 42) "example.eth:abc"
      "example.eth" "abc" (by decide) (Or.inl (by decide))).1 (by decide)⟩,
   ⟨by decide,
    (claim_C1_amended (fun s => s = "example.eth") (fun _ => false)
      (fun n => n = 1 || n = 3 || n = 4 || n = 5 || n = 42) "example.eth:999"
      "example.eth" "999" (by decide) (Or.inl (by decide))).2 999
      (by decide) (by decide)⟩⟩

/-- C7: over any list of candidate URIs and any injected chain-match
predicate, `validate_single_matching_uri` returns the unique matching
candidate when exactly one matches, fails with the `NoMatchingURI` error when
none does, and fails with the `AmbiguousMatch` error — whose message lists all
matching candidates and their count — when two or more do, never returning a
tie-break such as the first match. -/
theorem claim_C7 (chainMatches : String → Bool) (uris : List String) (u : String) :
    (uris.filter chainMatches = [u] →
      validate_single_matching_uri chainMatches uris = .ok u)
    ∧ (uris.filter chainMatches = [] →
      validate_single_matching_uri chainMatches uris =
        .error (.ethPMValidationError "Package has no matching URIs on chain."))
    ∧ (2 ≤ (uris.filter chainMatches).length →
      validate_single_matching_uri chainMatches uris =
        .error (.ethPMValidationError (ambiguousMatchMsg (uris.filter chainMatches)))) := by
  unfold validate_single_matching_uri
  refine ⟨fun h => ?_, fun h => ?_, fun h => ?_⟩
  · simp [h]
  · simp [h]
  · cases hf : uris.filter chainMatches with
    | nil => rw [hf] at h; simp at h
    | cons a t =>
      rw [hf] at h
      have hlen : ¬ (a :: t).length = 1 := by
        simp only [List.length_cons] at h ⊢
        omega
      have ht : ¬ t = [] := by
        intro hteq
        subst hteq
        simp at h
      simp [hf, hlen, ht]

/-- C7 witness: over three candidates, exactly one match is returned, zero
matches fail with `NoMatchingURI`, and two matches fail with `AmbiguousMatch`
listing both matches and their count. -/
theorem claim_C7_witness :
    validate_single_matching_uri (fun s => s = "b") ["a", "b", "c"] = .ok "b"
    ∧ validate_single_matching_uri (fun _ => false) ["a", "b", "c"] =
        .error (.ethPMValidationError "Package has no matching URIs on chain.")
    ∧ validate_single_matching_uri (fun s => s = "b" || s = "c") ["a", "b", "c"] =
        .error (.ethPMValidationError (ambiguousMatchMsg ["b", "c"])) :=
  ⟨(claim_C7 (fun s => s = "b") ["a", "b", "c"] "b").1 (by decide),
   (claim_C7 (fun _ => false) ["a", "b", "c"] "").2.1 (by decide),
   by
    have hlist : List.filter (fun s => s = "b" || s = "c") ["a", "b", "c"] = ["b", "c"] := by
      decide
    have h := (claim_C7 (fun s => s = "b" || s = "c") ["a", "b", "c"] "").2.2
    rw [hlist] at h
    exact h (by decide)⟩

theorem tn_lookup_chainId (l : List (String × PyVal)) :
    assocLookup "chainId" (transaction_normalizer l) = none := by
  induction l with
  | nil => rfl
  | cons kv t ih =>
    rw [transaction_normalizer] at ih ⊢
    by_cases h : kv.1 = "chainId"
    · rw [List.filter_cons_of_neg (by simp [h])]
      exact ih
    · rw [List.filter_cons_of_pos (by simp [h]), assocLookup, if_neg h]
      exact ih

theorem tn_lookup_other (k : String) (hk : k ≠ "chainId") (l : List (String × PyVal)) :
    assocLookup k (transaction_normalizer l) = assocLookup k l := by
  induction l with
  | nil => rfl
  | cons kv t ih =>
    rw [transaction_normalizer] at ih ⊢
    by_cases h : kv.1 = "chainId"
    · rw [List.filter_cons_of_neg (by simp [h]), ih, assocLookup]
      rw [if_neg (fun hh => hk (hh.symm.trans h))]
    · rw [List.filter_cons_of_pos (by simp [h]), assocLookup, assocLookup]
      by_cases h2 : kv.1 = k
      · rw [if_pos h2, if_pos h2]
      · rw [if_neg h2, if_neg h2]
        exact ih

theorem tn_no_chainId (l : List (String × PyVal))
    (hnone : assocLookup "chainId" l = none) : transaction_normalizer l = l := by
  induction l with
  | nil => rfl
  | cons kv t ih =>
    rw [assocLookup] at hnone
    by_cases h : kv.1 = "chainId"
    · rw [if_pos h] at hnone; cases hnone
    · rw [if_neg h] at hnone
      rw [transaction_normalizer, List.filter_cons_of_pos (by simp [h])]
      have ht := ih hnone
      rw [transaction_normalizer] at ht
      rw [ht]

/-- C10: `transaction_normalizer` removes only the `chainId` key from a
transaction mapping: the result has no `chainId` entry, every other key maps
to the same value as in the input, and a mapping without a `chainId` key is
returned unchanged. -/
theorem claim_C10 (tx : List (String × PyVal)) :
    assocLookup "chainId" (transaction_normalizer tx) = none
    ∧ (∀ k, k ≠ "chainId" →
        assocLookup k (transaction_normalizer tx) = assocLookup k tx)
    ∧ (assocLookup "chainId" tx = none → transaction_normalizer tx = tx) :=
  ⟨tn_lookup_chainId tx, fun k hk => tn_lookup_other k hk tx, tn_no_chainId tx⟩

/-- C10 witness: a transaction with a `chainId` entry loses exactly that
entry and keeps the other keys, and one without a `chainId` entry is returned
unchanged. -/
theorem claim_C10_witness :
    assocLookup "chainId"
      (transaction_normalizer
        [("from", .pyStr "a"), ("chainId", .pyInt 1), ("to", .pyStr "b")]) = none
    ∧ assocLookup "to"
        (transaction_normalizer
          [("from", .pyStr "a"), ("chainId", .pyInt 1), ("to", .pyStr "b")]) =
        assocLookup "to" [("from", .pyStr "a"), ("chainId", .pyInt 1), ("to", .pyStr "b")]
    ∧ transaction_normalizer [("from", PyVal.pyStr "a"), ("to", PyVal.pyStr "b")] =
        [("from", PyVal.pyStr "a"), ("to", PyVal.pyStr "b")] :=
  ⟨(claim_C10 [("from", .pyStr "a"), ("chainId", .pyInt 1), ("to", .pyStr "b")]).1,
   (claim_C10 [("from", .pyStr "a"), ("chainId", .pyInt 1), ("to", .pyStr "b")]).2.1
     "to" (by decide),
   (claim_C10 [("from", PyVal.pyStr "a"), ("to", PyVal.pyStr "b")]).2.2 (by decide)⟩

/-- C9: `check_extradata_length` is a validating identity — whenever it does
not raise it returns its input unchanged; it raises the `ValidationError`
exactly when the input is a str/int/bytes (Python `bool` included, being an
`int` subclass) whose `HexBytes` byte interpretation exists and is longer
than 32 bytes; and a value of any other type is returned unchanged with no
length check at all. -/
theorem claim_C9 (val : PyVal) :
    (∀ v, check_extradata_length val = .ok v → v = val)
    ∧ ((∃ m, check_extradata_length val = .error (.web3ValidationError m)) ↔
        (isStrIntBytes val = true ∧
          ∃ bs, hexBytesOf val = some bs ∧ MAX_EXTRADATA_LENGTH < bs.length))
    ∧ (isStrIntBytes val = false → check_extradata_length val = .ok val) := by
  unfold check_extradata_length
  by_cases hs : isStrIntBytes val
  · cases hb : hexBytesOf val with
    | none =>
      refine ⟨?_, ?_, ?_⟩
      · intro v hv
        simp [hs, hb] at hv
      · simp [hs, hb]
      · intro hfalse
        rw [hs] at hfalse
        cases hfalse
    | some bs =>
      by_cases hl : bs.length > MAX_EXTRADATA_LENGTH
      · refine ⟨?_, ?_, ?_⟩
        · intro v hv
          simp [hs, hb, hl] at hv
        · simp [hs, hb, hl]
        · intro hfalse
          rw [hs] at hfalse
          cases hfalse
      · refine ⟨?_, ?_, ?_⟩
        · intro v hv
          simp [hs, hb, hl] at hv
          exact hv.symm
        · simp [hs, hb, hl]
        · intro hfalse
          rw [hs] at hfalse
          cases hfalse
  · refine ⟨?_, ?_, ?_⟩
    · intro v hv
      simp [hs] at hv
      exact hv.symm
    · simp [hs]
    · intro _
      simp [hs]

/-- C9 witness: a 33-byte extradata value raises the `ValidationError`, a
32-byte one is returned unchanged, and a value of a non-str/int/bytes type is
returned unchanged without a length check. -/
theorem claim_C9_witness :
    (∃ m, check_extradata_length (.pyBytes (List.replicate 33 0)) =
      .error (.web3ValidationError m))
    ∧ (∀ v, check_extradata_length (.pyBytes (List.replicate 32 0)) = .ok v →
        v = .pyBytes (List.replicate 32 0))
    ∧ check_extradata_length PyVal.pyNone = .ok PyVal.pyNone :=
  ⟨(claim_C9 (.pyBytes (List.replicate 33 0))).2.1.2 (by
      refine ⟨by decide, List.replicate 33 0, by decide, by decide⟩),
   fun v hv => (claim_C9 (.pyBytes (List.replicate 32 0))).1 v hv,
   (claim_C9 PyVal.pyNone).2.2 (by decide)⟩

/-- C5: for every registry URI whose scheme is the registry scheme but whose
authority validation fails with some error, and whose path strips to the empty
package name while a query string is present, `validate_registry_uri` fails
with that authority error — scheme first, then authority, before the
empty-path/query conflict could ever raise `MissingPackageName`. -/
theorem claim_C5 (isEns isChk : String → Bool) (isSupported : Int → Bool)
    (vpn : String → Except PyError Unit) (uri : String) (e : PyError)
    (hscheme : (urlparse uri).scheme = REGISTRY_URI_SCHEME)
    (hauth : validate_registry_uri_authority isEns isChk isSupported
      (urlparse uri).netloc = .error e)
    (hpath : stripChar '/' (urlparse uri).path.data = [])
    (hquery : (urlparse uri).query ≠ "") :
    validate_registry_uri isEns isChk isSupported vpn uri = .error e := by
  unfold validate_registry_uri validate_registry_uri_parts validate_registry_uri_scheme
  rw [hscheme, hauth]
  simp

/-- C5 witness: `"erc1319://packages.eth:1:2/?version=1.0.0"` has a valid
scheme, a malformed authority (two colons), an empty stripped path and a
query, and fails with the `MalformedAuthority` error, not
`MissingPackageName`. -/
theorem claim_C5_witness :
    (urlparse "erc1319://packages.eth:1:2/?version=1.0.0").scheme = REGISTRY_URI_SCHEME
    ∧ stripChar '/' (urlparse "erc1319://packages.eth:1:2/?version=1.0.0").path.data = []
    ∧ (urlparse "erc1319://packages.eth:1:2/?version=1.0.0").query ≠ ""
    ∧ validate_registry_uri (fun s => s = "packages.eth") (fun _ => false)
        (fun n => n = 1 || n = 3 || n = 4 || n = 5 || n = 42) (fun _ => .ok ())
        "erc1319://packages.eth:1:2/?version=1.0.0" =
        .error (.ethPMValidationError (malformedAuthorityMsg "packages.eth:1:2")) :=
  ⟨by decide, by decide, by decide,
    claim_C5 (fun s => s = "packages.eth") (fun _ => false)
      (fun n => n = 1 || n = 3 || n = 4 || n = 5 || n = 42) (fun _ => .ok ())
      "erc1319://packages.eth:1:2/?version=1.0.0"
      (.ethPMValidationError (malformedAuthorityMsg "packages.eth:1:2"))
      (by decide) (by decide) (by decide) (by decide)⟩

/-- C6: for every registry URI with a valid scheme and a valid authority whose
path strips to the empty package name, `validate_registry_uri` fails with
`MissingPackageName` when a query string is present, and succeeds when no
query is present. -/
theorem claim_C6 (isEns isChk : String → Bool) (isSupported : Int → Bool)
    (vpn : String → Except PyError Unit) (uri : String)
    (hscheme : (urlparse uri).scheme = REGISTRY_URI_SCHEME)
    (hauth : validate_registry_uri_authority isEns isChk isSupported
      (urlparse uri).netloc = .ok ())
    (hpath : stripChar '/' (urlparse uri).path.data = []) :
    ((urlparse uri).query ≠ "" →
      validate_registry_uri isEns isChk isSupported vpn uri =
        .error (.ethPMValidationError missingPackageNameMsg))
    ∧ ((urlparse uri).query = "" →
      validate_registry_uri isEns isChk isSupported vpn uri = .ok ()) := by
  unfold validate_registry_uri validate_registry_uri_parts validate_registry_uri_scheme
  rw [hscheme, hauth, hpath]
  constructor
  · intro hq
    simp [hq, missingPackageNameMsg]
  · intro hq
    simp [hq]

/-- C6 witness: `"erc1319://packages.eth:1/"` (empty package path, no query)
validates successfully, while the same URI with `"?version=1.0.0"` appended
fails with `MissingPackageName`. -/
theorem claim_C6_witness :
    validate_registry_uri (fun s => s = "packages.eth") (fun _ => false)
      (fun n => n = 1 || n = 3 || n = 4 || n = 5 || n = 42) (fun _ => .ok ())
      "erc1319://packages.eth:1/" = .ok ()
    ∧ validate_registry_uri (fun s => s = "packages.eth") (fun _ => false)
        (fun n => n = 1 || n = 3 || n = 4 || n = 5 || n = 42) (fun _ => .ok ())
        "erc1319://packages.eth:1/?version=1.0.0" =
        .error (.ethPMValidationError missingPackageNameMsg) :=
  ⟨(claim_C6 (fun s => s = "packages.eth") (fun _ => false)
      (fun n => n = 1 || n = 3 || n = 4 || n = 5 || n = 42) (fun _ => .ok ())
      "erc1319://packages.eth:1/" (by decide) (by decide) (by decide)).2 (by decide),
   (claim_C6 (fun s => s = "packages.eth") (fun _ => false)
      (fun n => n = 1 || n = 3 || n = 4 || n = 5 || n = 42) (fun _ => .ok ())
      "erc1319://packages.eth:1/?version=1.0.0" (by decide) (by decide) (by decide)).1
      (by decide)⟩

/-- The mismatch message repeats both the expected digest and the source URI:
its URI and digest segments occur inside it. -/
theorem contentHashMismatchMsg_contains (blob_uri blob_hash : String) :
    strContains (contentHashMismatchMsg blob_uri blob_hash) blob_hash = true
    ∧ strContains (contentHashMismatchMsg blob_uri blob_hash) blob_uri = true := by
  constructor
  · show containsSeg blob_hash.data (contentHashMismatchMsg blob_uri blob_hash).data = true
    rw [contentHashMismatchMsg]
    simp only [String.data_append, List.append_assoc]
    apply containsSeg_append_of
    apply containsSeg_append_of
    apply containsSeg_append_of
    exact containsSeg_self_append _ _
  · show containsSeg blob_uri.data (contentHashMismatchMsg blob_uri blob_hash).data = true
    rw [contentHashMismatchMsg]
    simp only [String.data_append, List.append_assoc]
    apply containsSeg_append_of
    exact containsSeg_self_append _ _

set_option maxRecDepth 100000 in
/-- C2 counterexample: for contents `b"hello"` and a blob URI ending in
`deadbeef`, validation fails with the `ContentHashMismatch` error, but the
error message does NOT include the computed digest
(`b6fc4c620b67d95f953a5c1c1230aaab5db5a1b0`) — it repeats only the expected
digest from the URI and the URI itself. -/
theorem claim_C2_counterexample :
    validate_blob_uri_contents [104, 101, 108, 108, 111] "blob://example.com/deadbeef" =
      .error (.ethPMValidationError
        (contentHashMismatchMsg "blob://example.com/deadbeef" "deadbeef"))
    ∧ sha1Hex (utf8Encode (blobFraming "hello")) =
        "b6fc4c620b67d95f953a5c1c1230aaab5db5a1b0"
    ∧ strContains (contentHashMismatchMsg "blob://example.com/deadbeef" "deadbeef")
        "b6fc4c620b67d95f953a5c1c1230aaab5db5a1b0" = false := by
  refine ⟨by decide, by decide, by decide⟩

/-- C2 (amended): whenever the framed digest of text-decodable contents
differs from the final path segment of the blob URI,
`validate_blob_uri_contents` fails with the `ContentHashMismatch` error whose
message includes the expected digest taken from the URI and the source URI
itself — but not the computed digest. -/
theorem claim_C2_amended (contents : List Nat) (blob_uri : String) (s : String)
    (hdec : to_text contents = some s)
    (hmm : sha1Hex (utf8Encode (blobFraming s)) ≠ lastSegment (urlparse blob_uri).path) :
    validate_blob_uri_contents contents blob_uri =
      .error (.ethPMValidationError
        (contentHashMismatchMsg blob_uri (lastSegment (urlparse blob_uri).path)))
    ∧ strContains
        (contentHashMismatchMsg blob_uri (lastSegment (urlparse blob_uri).path))
        (lastSegment (urlparse blob_uri).path) = true
    ∧ strContains
        (contentHashMismatchMsg blob_uri (lastSegment (urlparse blob_uri).path))
        blob_uri = true := by
  refine ⟨?_, (contentHashMismatchMsg_contains _ _).1,
    (contentHashMismatchMsg_contains _ _).2⟩
  unfold validate_blob_uri_contents
  rw [hdec]
  simp [hmm]

set_option maxRecDepth 100000 in
/-- C2 witness: the amended claim at contents `b"hello"` and the mismatching
blob URI `"blob://example.com/deadbeef"`. -/
theorem claim_C2_amended_witness :
    to_text [104, 101, 108, 108, 111] = some "hello"
    ∧ validate_blob_uri_contents [104, 101, 108, 108, 111]
        "blob://example.com/deadbeef" =
        .error (.ethPMValidationError
          (contentHashMismatchMsg "blob://example.com/deadbeef" "deadbeef"))
    ∧ strContains (contentHashMismatchMsg "blob://example.com/deadbeef" "deadbeef")
        "deadbeef" = true :=
  ⟨by decide,
   by
    have h := (claim_C2_amended [104, 101, 108, 108, 111] "blob://example.com/deadbeef"
      "hello" (by decide) (by decide)).1
    simpa using h,
   by
    have h := (claim_C2_amended [104, 101, 108, 108, 111] "blob://example.com/deadbeef"
      "hello" (by decide) (by decide)).2.1
    simpa using h⟩

/-- C3 counterexample: for the undecodable byte sequence `[0xFF]`,
`validate_blob_uri_contents` does not fail with a typed `EncodingError` inside
the validation-error family: the foreign `UnicodeDecodeError` raised by text
decoding escapes unchanged, and it is not an instance of the base
validation-error kind. -/
theorem claim_C3_counterexample :
    validate_blob_uri_contents [255] "blob://example.com/deadbeef" =
      .error .unicodeDecodeError
    ∧ PyError.unicodeDecodeError.isEthPM = false := by decide

/-- C3 (amended): for every byte sequence that is not decodable as text,
`validate_blob_uri_contents` escapes with the foreign `UnicodeDecodeError`
raised by the text decoder, which is not an instance of the base
validation-error family (the source has no typed `EncodingError`). -/
theorem claim_C3_amended (contents : List Nat) (blob_uri : String)
    (hdec : utf8Decode contents = none) :
    validate_blob_uri_contents contents blob_uri = .error .unicodeDecodeError
    ∧ PyError.unicodeDecodeError.isEthPM = false := by
  refine ⟨?_, rfl⟩
  unfold validate_blob_uri_contents to_text
  rw [hdec]
  rfl

/-- C3 witness: the amended claim at the undecodable input `[0xFF]`. -/
theorem claim_C3_amended_witness :
    utf8Decode [255] = none
    ∧ validate_blob_uri_contents [255] "blob://host/x" = .error .unicodeDecodeError :=
  ⟨by decide, (claim_C3_amended [255] "blob://host/x" (by decide)).1⟩

/-- C8: for every text-decodable contents, if the final path segment of the
blob URI equals the lowercase hex SHA-1 digest of the git-blob framing
`"blob " + decimal character-length + NUL + decoded text`, then
`validate_blob_uri_contents` succeeds; and whenever the framed digest differs
from that path segment, it fails with the `ContentHashMismatch` error. -/
theorem claim_C8 (contents : List Nat) (blob_uri : String) (s : String)
    (hdec : to_text contents = some s) :
    (lastSegment (urlparse blob_uri).path = sha1Hex (utf8Encode (blobFraming s)) →
      validate_blob_uri_contents contents blob_uri = .ok ())
    ∧ (lastSegment (urlparse blob_uri).path ≠ sha1Hex (utf8Encode (blobFraming s)) →
      validate_blob_uri_contents contents blob_uri =
        .error (.ethPMValidationError
          (contentHashMismatchMsg blob_uri (lastSegment (urlparse blob_uri).path)))) := by
  unfold validate_blob_uri_contents
  rw [hdec]
  constructor
  · intro h
    simp [h]
  · intro h
    have h2 : sha1Hex (utf8Encode (blobFraming s)) ≠ lastSegment (urlparse blob_uri).path :=
      fun hh => h hh.symm
    simp [h2]

set_option maxRecDepth 400000 in
/-- C8 witness: contents `b"hello"` frame to `"blob 5\x00hello"`, whose SHA-1
hex digest is `b6fc4c620b67d95f953a5c1c1230aaab5db5a1b0`; a blob URI ending in
that digest validates successfully, and one ending in a different segment
fails with `ContentHashMismatch`. -/
theorem claim_C8_witness :
    to_text [104, 101, 108, 108, 111] = some "hello"
    ∧ blobFraming "hello" = "blob 5\x00hello"
    ∧ validate_blob_uri_contents [104, 101, 108, 108, 111]
        "blob://example.com/b6fc4c620b67d95f953a5c1c1230aaab5db5a1b0" = .ok ()
    ∧ validate_blob_uri_contents [104, 101, 108, 108, 111]
        "blob://example.com/fffc4c620b67d95f953a5c1c1230aaab5db5a1b0" =
        .error (.ethPMValidationError
          (contentHashMismatchMsg
            "blob://example.com/fffc4c620b67d95f953a5c1c1230aaab5db5a1b0"
            "fffc4c620b67d95f953a5c1c1230aaab5db5a1b0")) :=
  ⟨by decide, by decide,
   (claim_C8 [104, 101, 108, 108, 111]
      "blob://example.com/b6fc4c620b67d95f953a5c1c1230aaab5db5a1b0" "hello"
      (by decide)).1 (by decide),
   by
    have h := (claim_C8 [104, 101, 108, 108, 111]
      "blob://example.com/fffc4c620b67d95f953a5c1c1230aaab5db5a1b0" "hello"
      (by decide)).2 (by decide)
    simpa using h⟩
